import Mathlib

/-!
Verification of the Nano_Gaallery worker (`src/worker.js`).

The file shallowly embeds the two halves of the application:

* the Cloudflare-worker backend `handleGenerateRequest` — access gate,
  wire-payload construction (`parts`, `generationConfig`), error surfacing
  for non-ok upstream responses, and the parsing of the upstream response
  into `data:` URLs;
* the browser frontend `doGenerate` together with the IndexedDB helper
  `dbHelper` — validation, prompt substitution, the `/api/generate`
  round-trip, and persistence of the generated images.

JavaScript truthiness on strings and on possibly-absent fields is modelled
explicitly (`jsTruthy`, `optTruthy`, `jsOr`); JS arrays are Lean lists with
`push` appending at the end; a `throw` inside a `try` body transfers
control to the associated `catch` (relevant for the non-ok error branch).
-/

namespace NanoGallery

/-- JS truthiness of a string: truthy iff non-empty. -/
def jsTruthy (s : String) : Bool := s ≠ ""

/-- JS truthiness of a possibly-absent string field (`undefined` is falsy,
`""` is falsy). -/
def optTruthy : Option String → Bool
  | none => false
  | some s => s ≠ ""

/-- JS `a || b` on a possibly-absent string `a` with string default `b`. -/
def jsOr (a : Option String) (b : String) : String :=
  match a with
  | none => b
  | some s => if s = "" then b else s

/-- JS `Array.prototype.push`: appends at the end of the array. -/
def listPush {α : Type} (l : List α) (x : α) : List α := l ++ [x]

/-- A reference image as sent by the client in the request body:
`{data: base64, mimeType}` (`mimeType` may be absent or empty). -/
structure RefImage where
  mimeType : Option String
  data : String
deriving DecidableEq, Repr

/-- A content part of the wire payload built by the worker: either
`{inlineData: {mimeType, data}}` or `{text}`. -/
inductive WirePart where
  | inlineData (mimeType : String) (data : String)
  | text (s : String)
deriving DecidableEq, Repr

/-- Whether a wire part is an inline-data part. -/
def WirePart.isInline : WirePart → Bool
  | .inlineData _ _ => true
  | .text _ => false

/-- Whether a wire part is a text part. -/
def WirePart.isText : WirePart → Bool
  | .inlineData _ _ => false
  | .text _ => true

/-- The inline-data part the worker pushes for one reference image
(`mimeType: img.mimeType || 'image/jpeg'`, worker.js lines 69-74). -/
def mkInlinePart (img : RefImage) : WirePart :=
  .inlineData (jsOr img.mimeType "image/jpeg") img.data

/-- worker.js lines 64-81: start from an empty `parts` array, push one
inline-data part per reference image (when `images` is present and an
array), then push a single text part when `prompt` is truthy. -/
def buildParts (images : Option (List RefImage)) (prompt : String) :
    List WirePart :=
  let parts : List WirePart := []
  let parts :=
    match images with
    | some imgs => imgs.foldl (fun acc img => listPush acc (mkInlinePart img)) parts
    | none => parts
  if jsTruthy prompt then listPush parts (.text prompt) else parts

/-- The model id of the PRO variant (`MODELS.NANO_PRO`). -/
def proModelId : String := "gemini-3-pro-image-preview"

/-- The model id of the base (fast) variant (`MODELS.NANO`). -/
def nanoModelId : String := "gemini-2.5-flash-image"

/-- The `generationConfig.imageConfig` object built by the worker. -/
structure ImageConfig where
  aspectRatio : String
  imageSize : Option String
deriving DecidableEq, Repr

/-- worker.js lines 83-91: aspect ratio defaults to `'1:1'`; `imageSize`
is added only for the PRO model id and a truthy `imageSize`. -/
def buildImageConfig (model : String) (aspectRatio imageSize : Option String) :
    ImageConfig :=
  let cfg : ImageConfig := { aspectRatio := jsOr aspectRatio "1:1", imageSize := none }
  if model = proModelId ∧ optTruthy imageSize then
    { cfg with imageSize := imageSize }
  else cfg

/-- Pushing the mapped elements of a list one by one onto an accumulator
appends the mapped list. -/
theorem foldl_listPush_eq_append {α β : Type} (f : α → β) (imgs : List α)
    (acc : List β) :
    imgs.foldl (fun a x => listPush a (f x)) acc = acc ++ imgs.map f := by
  induction imgs generalizing acc with
  | nil => simp
  | cons x xs ih =>
    rw [List.foldl_cons, ih]
    simp [listPush]

/-- The parts list is the mapped reference images followed by the optional
text part. -/
theorem buildParts_eq (imgs : List RefImage) (prompt : String) :
    buildParts (some imgs) prompt =
      imgs.map mkInlinePart ++
        (if jsTruthy prompt then [WirePart.text prompt] else []) := by
  simp only [buildParts, foldl_listPush_eq_append]
  by_cases h : jsTruthy prompt <;> simp [h, listPush]

/-- C1: for every generation request, the wire payload's content parts are
all reference images first, in upload order, each inline with the supplied
MIME type or `image/jpeg` when unspecified, followed by exactly one text
part iff the prompt is non-empty; with N ≥ 1 reference images and an empty
prompt the payload has exactly N inline-data parts and zero text parts. -/
theorem parts_order_and_counts (imgs : List RefImage) (prompt : String) :
    buildParts (some imgs) prompt =
      imgs.map (fun img => WirePart.inlineData (jsOr img.mimeType "image/jpeg") img.data) ++
        (if prompt ≠ "" then [WirePart.text prompt] else []) ∧
    (buildParts (some imgs) prompt).countP (fun p => p.isText) =
      (if prompt ≠ "" then 1 else 0) ∧
    (buildParts (some imgs) "").countP (fun p => p.isInline) = imgs.length ∧
    (buildParts (some imgs) "").countP (fun p => p.isText) = 0 := by
  refine ⟨?_, ?_, ?_, ?_⟩
  · rw [buildParts_eq]
    by_cases h : prompt = "" <;> simp [h, jsTruthy, mkInlinePart]
  · rw [buildParts_eq]
    by_cases h : prompt = "" <;>
      simp [h, jsTruthy, List.countP_append, mkInlinePart, WirePart.isText]
  · rw [buildParts_eq]
    simp [jsTruthy, mkInlinePart, WirePart.isInline, List.countP_eq_length]
  · rw [buildParts_eq]
    simp [jsTruthy, mkInlinePart, WirePart.isText]

/-- C6: the generation config carries a resolution only for the PRO model
id: for every non-PRO model it is `none` whatever `imageSize` was, and
whenever it is present the model is the PRO variant. -/
theorem imageSize_only_for_pro (model : String) (aspectRatio imageSize : Option String)
    (h : model ≠ proModelId) :
    (buildImageConfig model aspectRatio imageSize).imageSize = none ∧
    ∀ m a s, ((buildImageConfig m a s).imageSize).isSome = true → m = proModelId := by
  constructor
  · unfold buildImageConfig
    split
    · next hc => exact absurd hc.1 h
    · rfl
  · intro m a s hs
    by_contra hm
    unfold buildImageConfig at hs
    split at hs
    · next hc => exact hm hc.1
    · simp at hs

/-- Witness for C6 at the base model with `imageSize = '4K'`. -/
theorem imageSize_only_for_pro_witness :
    (buildImageConfig nanoModelId (some "1:1") (some "4K")).imageSize = none :=
  (imageSize_only_for_pro nanoModelId (some "1:1") (some "4K") (by decide)).1

/-! ## Non-ok upstream responses (worker.js lines 106-114) -/

/-- The `error` object of a parsed upstream error body (`errJson.error`). -/
structure ErrObj where
  message : Option String
deriving DecidableEq, Repr

/-- The parsed upstream error body (`errJson`); `none` at the use site means
`JSON.parse` failed on the body. -/
structure ErrJson where
  error : Option ErrObj
deriving DecidableEq, Repr

/-- JS `try { tryBlock } catch (e) { catchBlock e }`: a value thrown inside
the `try` block — including by a `throw` statement written there — is
handled by the associated `catch` block. -/
def jsTryCatch {α : Type} (tryBlock : Except String α)
    (catchBlock : String → Except String α) : Except String α :=
  match tryBlock with
  | .error e => catchBlock e
  | .ok a => .ok a

/-- worker.js lines 108-110, the `try` body of the non-ok branch:
`JSON.parse(errorText)` (throws when the body is not JSON), then
`throw new Error(errJson.error?.message || errorText)`. Both paths throw. -/
def nonOkTryBody (body : String) (parsed : Option ErrJson) : Except String Unit :=
  match parsed with
  | none => .error "SyntaxError: Unexpected token"
  | some j => .error (jsOr (j.error.bind (fun e => e.message)) body)

/-- worker.js lines 106-114: the whole non-ok branch. The `catch` block
rethrows the status-prefixed raw body, whatever was thrown in the `try`. -/
def nonOkBranch (status : Nat) (body : String) (parsed : Option ErrJson) :
    Except String Unit :=
  jsTryCatch (nonOkTryBody body parsed)
    (fun _ => .error ("Google API Error (" ++ toString status ++ "): " ++ body))

/-- A structured JSON error body, as in the C2 failing input. -/
def quotaBody : String :=
  "\x7b\"error\":\x7b\"message\":\"quota exceeded\"\x7d\x7d"

/-- C2 (observed behaviour at the failing input): even when the non-ok
body parses as structured JSON with an `error.message` field, the surfaced
failure is the status-prefixed raw body, not that message — the `throw`
carrying the parsed message sits inside its own `try` and is swallowed by
the `catch`. -/
theorem nonOk_parsed_message_is_ignored :
    nonOkBranch 429 quotaBody
        (some { error := some { message := some "quota exceeded" } }) =
      .error ("Google API Error (429): " ++ quotaBody) ∧
    ("Google API Error (429): " ++ quotaBody) ≠ "quota exceeded" := by
  exact ⟨rfl, by decide⟩

/-! ## Upstream success-response parsing (worker.js lines 116-134) -/

/-- An `inlineData` object of an upstream response part. -/
structure RInlineData where
  mimeType : Option String
  data : Option String
deriving DecidableEq, Repr

/-- A content part of an upstream response candidate. -/
structure RPart where
  inlineData : Option RInlineData
  text : Option String
deriving DecidableEq, Repr

/-- A `content` object of an upstream response candidate. -/
structure RContent where
  parts : Option (List RPart)
deriving DecidableEq, Repr

/-- A candidate of an upstream response. -/
structure RCandidate where
  content : Option RContent
deriving DecidableEq, Repr

/-- A parsed upstream success response (`data`). -/
structure RData where
  candidates : Option (List RCandidate)
deriving DecidableEq, Repr

/-- The loop body, worker.js lines 121-124: a part contributes a `data:`
URL when `part.inlineData && part.inlineData.data` is truthy, with MIME
type `part.inlineData.mimeType || 'image/png'`. -/
def partURL (p : RPart) : Option String :=
  match p.inlineData with
  | none => none
  | some d =>
    match d.data with
    | none => none
    | some s =>
      if s = "" then none
      else some ("data:" ++ jsOr d.mimeType "image/png" ++ ";base64," ++ s)

/-- The loop condition of worker.js line 121: the part carries inline
binary image data. -/
def hasInlineImageData (p : RPart) : Bool :=
  match p.inlineData with
  | none => false
  | some d =>
    match d.data with
    | none => false
    | some s => s ≠ ""

/-- The MIME type declared by a part's `inlineData`, if any. -/
def partMime (p : RPart) : Option String :=
  match p.inlineData with
  | none => none
  | some d => d.mimeType

/-- The base64 payload of a part's `inlineData` (empty when absent). -/
def partData (p : RPart) : String :=
  match p.inlineData with
  | none => ""
  | some d => d.data.getD ""

/-- The parts list of a candidate as the guard of line 119 sees it. -/
def candParts (c : RCandidate) : List RPart :=
  match c.content with
  | none => []
  | some ct => ct.parts.getD []

/-- worker.js lines 117-126: the guard
`data.candidates && data.candidates[0].content && data.candidates[0].content.parts`
followed by the extraction loop over the first candidate's parts. When
`candidates` is the (truthy) empty array, `data.candidates[0]` is
`undefined` and reading `.content` on it throws a `TypeError`. -/
def extractImages (data : RData) : Except String (List String) :=
  match data.candidates with
  | none => .ok []
  | some [] =>
    .error "TypeError: Cannot read properties of undefined (reading 'content')"
  | some (c :: _) =>
    match c.content with
    | none => .ok []
    | some ct =>
      match ct.parts with
      | none => .ok []
      | some ps => .ok (ps.filterMap partURL)

/-- worker.js line 129:
`data.candidates?.[0]?.content?.parts?.find(p => p.text)`. -/
def findTextPart (data : RData) : Option RPart :=
  match data.candidates with
  | none => none
  | some [] => none
  | some (c :: _) =>
    match c.content with
    | none => none
    | some ct =>
      match ct.parts with
      | none => none
      | some ps => ps.find? (fun p => optTruthy p.text)

/-- Outcome of processing a 200 upstream body (worker.js lines 116-138):
either the list of generated `data:` URLs, or a thrown error message. -/
inductive ApiResult where
  | ok (images : List String)
  | err (message : String)
deriving DecidableEq, Repr

/-- worker.js lines 116-138: extract the images; with zero images, surface
the first truthy text part prefixed by `生成失败: `, else the generic
no-image-data message. -/
def processOkBody (data : RData) : ApiResult :=
  match extractImages data with
  | .error e => .err e
  | .ok urls =>
    if urls.length = 0 then
      match findTextPart data with
      | some p => .err ("生成失败: " ++ p.text.getD "undefined")
      | none => .err "API 返回成功但未包含图片数据"
    else .ok urls

theorem partURL_eq_of_has (p : RPart) (h : hasInlineImageData p = true) :
    partURL p =
      some ("data:" ++ jsOr (partMime p) "image/png" ++ ";base64," ++ partData p) := by
  cases hi : p.inlineData with
  | none => simp [hasInlineImageData, hi] at h
  | some d =>
    cases hd : d.data with
    | none => simp [hasInlineImageData, hi, hd] at h
    | some s =>
      have hs : s ≠ "" := by simpa [hasInlineImageData, hi, hd] using h
      simp [partURL, partMime, partData, hi, hd, hs]

theorem partURL_eq_none_of_not_has (p : RPart) (h : hasInlineImageData p = false) :
    partURL p = none := by
  cases hi : p.inlineData with
  | none => simp [partURL, hi]
  | some d =>
    cases hd : d.data with
    | none => simp [partURL, hi, hd]
    | some s =>
      have hs : s = "" := by simpa [hasInlineImageData, hi, hd] using h
      simp [partURL, hi, hd, hs]

theorem filterMap_partURL_eq (ps : List RPart) :
    ps.filterMap partURL =
      (ps.filter hasInlineImageData).map
        (fun p => "data:" ++ jsOr (partMime p) "image/png" ++ ";base64," ++ partData p) := by
  induction ps with
  | nil => rfl
  | cons p ps ih =>
    by_cases h : hasInlineImageData p = true
    · rw [List.filterMap_cons, partURL_eq_of_has p h, List.filter_cons_of_pos h]
      simp [ih]
    · have h' : hasInlineImageData p = false := by
        cases hb : hasInlineImageData p
        · rfl
        · exact absurd hb h
      rw [List.filterMap_cons, partURL_eq_none_of_not_has p h',
        List.filter_cons_of_neg (by simp [h'])]
      exact ih

/-- C5: for every upstream response of the documented single-candidate
shape, parsing yields one `data:` URL per content part carrying inline
binary image data, in the response's part order, each of the form
`data:<mime>;base64,<data>` with the part's declared MIME type or
`image/png` when it is absent; in particular the number of URLs equals the
number of inline-data parts. -/
theorem parse_response_roundtrip (d : RData) (c : RCandidate)
    (h : d.candidates = some [c]) :
    extractImages d =
      .ok ((candParts c).filter hasInlineImageData |>.map
        (fun p => "data:" ++ jsOr (partMime p) "image/png" ++ ";base64," ++ partData p)) ∧
    ((candParts c).filter hasInlineImageData |>.map
        (fun p => "data:" ++ jsOr (partMime p) "image/png" ++ ";base64," ++ partData p)).length =
      (candParts c).countP hasInlineImageData := by
  constructor
  · simp only [extractImages, h]
    cases hc : c.content with
    | none => simp [candParts, hc]
    | some ct =>
      cases hp : ct.parts with
      | none => simp [candParts, hc, hp]
      | some ps => simp [candParts, hc, hp, filterMap_partURL_eq]
  · rw [List.length_map]
    exact (List.countP_eq_length_filter _ _).symm

/-- A synthetic inline-data part with a declared MIME type. -/
def exPartJpeg : RPart :=
  { inlineData := some { mimeType := some "image/jpeg", data := some "QUJD" },
    text := none }

/-- A synthetic text part. -/
def exPartText : RPart := { inlineData := none, text := some "note" }

/-- A synthetic inline-data part without a declared MIME type. -/
def exPartNoMime : RPart :=
  { inlineData := some { mimeType := none, data := some "REVG" }, text := none }

/-- The candidate of the synthetic single-candidate response. -/
def exCand : RCandidate :=
  { content := some { parts := some [exPartJpeg, exPartText, exPartNoMime] } }

/-- The synthetic single-candidate response used as the C5 witness input. -/
def exResp : RData := { candidates := some [exCand] }

/-- Witness for C5: a synthetic single-candidate response with an
inline-data part with declared MIME `image/jpeg`, a text part, and an
inline-data part without a MIME type yields exactly the two `data:` URLs,
in order, with the MIME default applied to the second. -/
theorem parse_response_roundtrip_witness :
    exResp.candidates = some [exCand] ∧
    extractImages exResp =
      .ok ["data:image/jpeg;base64,QUJD", "data:image/png;base64,REVG"] := by
  refine ⟨rfl, ?_⟩
  have h := (parse_response_roundtrip exResp exCand rfl).1
  rw [h]
  rfl

/-- C9 (corrected): when the upstream 200 body yields zero image URLs
without crashing, the surfaced failure is the first truthy text part's text
prefixed by `生成失败: `, or the generic no-image-data message when no such
part exists. -/
theorem zero_image_failure_message (d : RData)
    (h : extractImages d = .ok []) :
    (∀ p t, findTextPart d = some p → p.text = some t →
      processOkBody d = .err ("生成失败: " ++ t)) ∧
    (findTextPart d = none →
      processOkBody d = .err "API 返回成功但未包含图片数据") := by
  constructor
  · intro p t hp ht
    simp [processOkBody, h, hp, ht]
  · intro hn
    simp [processOkBody, h, hn]

/-- A synthetic 200 body with a single text part and no image parts. -/
def exTextResp : RData :=
  { candidates := some [{ content := some { parts := some [exPartText] } }] }

/-- Witness for C9: the text-only response surfaces the text verbatim
behind the generation-failure marker. -/
theorem zero_image_failure_message_witness :
    extractImages exTextResp = .ok [] ∧
    processOkBody exTextResp = .err "生成失败: note" :=
  ⟨rfl, (zero_image_failure_message exTextResp rfl).1 exPartText "note" rfl rfl⟩

/-- The 200 body with an empty (truthy) `candidates` array. -/
def emptyCandResp : RData := { candidates := some [] }

/-- C9 counterexample: a 200 body whose `candidates` is the empty array
contains zero inline-data parts and no text part, yet the surfaced failure
is a `TypeError` message, not the generic no-image-data message. -/
theorem empty_candidates_typeerror :
    processOkBody emptyCandResp =
      .err "TypeError: Cannot read properties of undefined (reading 'content')" ∧
    processOkBody emptyCandResp ≠ .err "API 返回成功但未包含图片数据" := by
  refine ⟨rfl, ?_⟩
  decide

/-! ## The gallery record and the IndexedDB helper (worker.js lines 188-232) -/

/-- A persisted gallery record (`GeneratedImage`). -/
structure GeneratedImage where
  id : String
  url : String
  prompt : String
  model : String
  timestamp : Nat
deriving DecidableEq, Repr

/-- Lexicographic code-unit comparison of the two key strings' characters:
the order IndexedDB uses on string keys. -/
def keyCharsLt : List Char → List Char → Bool
  | [], [] => false
  | [], _ :: _ => true
  | _ :: _, [] => false
  | c :: cs, d :: ds =>
    if c.toNat < d.toNat then true
    else if d.toNat < c.toNat then false
    else keyCharsLt cs ds

/-- IndexedDB string-key order, non-strict. -/
def keyLe (a b : String) : Bool := a = b || keyCharsLt a.data b.data

/-- Insert a record into the position its `id` key has in ascending key
order (the IndexedDB index for keyPath `id`). -/
def insertByKey (x : GeneratedImage) : List GeneratedImage → List GeneratedImage
  | [] => [x]
  | y :: ys => if keyLe x.id y.id then x :: y :: ys else y :: insertByKey x ys

/-- The ascending-key view of the stored records: what IndexedDB
`getAll()` returns for an object store with keyPath `id`. -/
def sortByKey (l : List GeneratedImage) : List GeneratedImage :=
  l.foldr insertByKey []

/-- The helper `dbHelper.add` (worker.js lines 202-211): stores one more record (the
app always supplies a fresh UUID key). The state is kept in insertion
order. -/
def dbAdd (state : List GeneratedImage) (img : GeneratedImage) :
    List GeneratedImage :=
  state ++ [img]

/-- The helper `dbHelper.getAll` (worker.js lines 212-221): IndexedDB `getAll()`
(ascending key order) followed by `.reverse()`. -/
def dbGetAll (state : List GeneratedImage) : List GeneratedImage :=
  (sortByKey state).reverse

/-- An older record whose random UUID key happens to start with "b". -/
def imgOldB : GeneratedImage :=
  { id := "b", url := "u1", prompt := "p", model := "Nano", timestamp := 1 }

/-- A newer record whose random UUID key happens to start with "a". -/
def imgNewA : GeneratedImage :=
  { id := "a", url := "u2", prompt := "p", model := "Nano", timestamp := 2 }

/-- C3 (observed behaviour at the failing input): after appending the
record with key "b" and then the record with key "a", `getAll` returns
descending key order `[b, a]` — the reverse of IndexedDB's ascending key
order — which is not newest-first `[a, b]`. -/
theorem getAll_not_newest_first :
    dbGetAll (dbAdd (dbAdd [] imgOldB) imgNewA) = [imgOldB, imgNewA] ∧
    dbGetAll (dbAdd (dbAdd [] imgOldB) imgNewA) ≠ [imgNewA, imgOldB] := by
  constructor
  · decide
  · decide

/-! ## The client orchestrator `doGenerate` (worker.js lines 315-393) -/

/-- Drop leading whitespace characters from a character list. -/
def dropWhitespace : List Char → List Char
  | [] => []
  | c :: cs => if c.isWhitespace then dropWhitespace cs else c :: cs

/-- JS `String.prototype.trim`: remove whitespace from both ends. -/
def jsTrim (s : String) : String :=
  ⟨(dropWhitespace ((dropWhitespace s.data.reverse).reverse))⟩

/-- The parsed body of the `/api/generate` response as the client reads
it: `data.images` and `data.error`. -/
structure ClientRespBody where
  images : Option (List String)
  error : Option String
deriving DecidableEq, Repr

/-- What the awaited `fetch('/api/generate')` plus `response.json()` does:
either both resolve to a status and parsed body, or one of them rejects. -/
inductive FetchOutcome where
  | network (message : String)
  | resp (status : Nat) (body : ClientRespBody)
deriving DecidableEq, Repr

/-- HTTP `Response.ok`: status in the 200-299 range. -/
def respOk (status : Nat) : Bool := decide (200 ≤ status ∧ status ≤ 299)

/-- The JSON body the client sends to `/api/generate` (worker.js lines
346-352). -/
structure WireBody where
  model : String
  prompt : String
  images : List RefImage
  aspectRatio : String
  imageSize : String
deriving DecidableEq, Repr

/-- worker.js line 348: the prompt placed in the wire body —
`prompt || (referenceImages.length > 0 ? "Describe these images and modify them" : "")`. -/
def wireBodyPrompt (prompt : String) (refCount : Nat) : String :=
  if jsTruthy prompt then prompt
  else if refCount > 0 then "Describe these images and modify them" else ""

/-- worker.js line 328: the human-readable model label stored with each
record. -/
def modelLabel (model : String) : String :=
  if model = proModelId then "Nano Pro" else "Nano"

/-- worker.js lines 372-378: one `GeneratedImage` record per returned URL,
with a fresh id each, the pending request's original prompt and model
label, and the current time. -/
def mkImages (idGen : Nat → String) (p m : String) (ts : Nat) :
    Nat → List String → List GeneratedImage
  | _, [] => []
  | i, url :: rest =>
    { id := idGen i, url := url, prompt := p, model := m, timestamp := ts } ::
      mkImages idGen p m ts (i + 1) rest

/-- Outcome of one `doGenerate` run as the UI sees it. -/
inductive GenOutcome where
  | validationError (message : String)
  | unauthorized (message : String)
  | failure (message : String)
  | success (newImages : List GeneratedImage)
deriving DecidableEq, Repr

/-- Observable result of one `doGenerate` run: the outcome, the store
contents afterwards, whether the network was reached, the body sent, and
the 401-handler effects on the cached access code and the password
modal. -/
structure GenResult where
  outcome : GenOutcome
  store : List GeneratedImage
  networkCalled : Bool
  sentBody : Option WireBody
  cachedCodeCleared : Bool
  modalShown : Bool
deriving DecidableEq, Repr

/-- worker.js lines 315-393, `doGenerate`: validate
(`!prompt.trim() && referenceImages.length === 0`), POST the wire body,
handle 401 (clear the cached access code, reopen the modal), throw on a
non-ok status (`data.error || 'Request failed'`), build one record per
returned URL and persist them one by one — `addFailAt = some j` means the
store rejects the `j`-th `add`, aborting the loop after the first `j`
records were written. -/
def doGenerate (prompt : String) (refs : List RefImage)
    (model aspectRatio imageSize : String) (store : List GeneratedImage)
    (fetch : FetchOutcome) (idGen : Nat → String) (ts : Nat)
    (addFailAt : Option Nat) : GenResult :=
  if jsTrim prompt = "" ∧ refs.length = 0 then
    { outcome := .validationError "请输入提示词或上传参考图片", store := store,
      networkCalled := false, sentBody := none,
      cachedCodeCleared := false, modalShown := false }
  else
    let body : WireBody :=
      { model := model, prompt := wireBodyPrompt prompt refs.length,
        images := refs, aspectRatio := aspectRatio, imageSize := imageSize }
    match fetch with
    | .network e =>
      { outcome := .failure e, store := store, networkCalled := true,
        sentBody := some body, cachedCodeCleared := false, modalShown := false }
    | .resp status rbody =>
      if status = 401 then
        { outcome := .unauthorized "访问密码错误，请重新输入", store := store,
          networkCalled := true, sentBody := some body,
          cachedCodeCleared := true, modalShown := true }
      else if respOk status = false then
        { outcome := .failure (jsOr rbody.error "Request failed"), store := store,
          networkCalled := true, sentBody := some body,
          cachedCodeCleared := false, modalShown := false }
      else
        match rbody.images with
        | none =>
          { outcome :=
              .failure "TypeError: Cannot read properties of undefined (reading 'map')",
            store := store, networkCalled := true, sentBody := some body,
            cachedCodeCleared := false, modalShown := false }
        | some urls =>
          let newImages := mkImages idGen prompt (modelLabel model) ts 0 urls
          match addFailAt with
          | some j =>
            if j < newImages.length then
              { outcome := .failure "store add failed",
                store := store ++ newImages.take j, networkCalled := true,
                sentBody := some body, cachedCodeCleared := false,
                modalShown := false }
            else
              { outcome := .success newImages, store := store ++ newImages,
                networkCalled := true, sentBody := some body,
                cachedCodeCleared := false, modalShown := false }
          | none =>
            { outcome := .success newImages, store := store ++ newImages,
              networkCalled := true, sentBody := some body,
              cachedCodeCleared := false, modalShown := false }

/-! ## The access gate (worker.js lines 44-53 and 357-365) -/

/-- The JSON body and status of the gate's rejection response. -/
structure GateError where
  status : Nat
  error : String
  code : String
deriving DecidableEq, Repr

/-- worker.js lines 48-51: the 401 response body. -/
def unauthorizedResp : GateError :=
  { status := 401, error := "访问密码错误或未授权", code := "UNAUTHORIZED" }

/-- worker.js lines 44-53: when `env.ACCESS_CODE` is truthy, reject with
the 401 response when the `x-access-code` header is falsy or differs from
the secret; otherwise pass through (`none`). -/
def checkGate (accessCode authHeader : Option String) : Option GateError :=
  if optTruthy accessCode then
    if optTruthy authHeader = false ∨ authHeader ≠ accessCode then
      some unauthorizedResp
    else none
  else none

/-- C7: with an empty-or-whitespace prompt and no reference images, the
call fails with the validation error before any network call, sends no
body, and leaves the store unchanged. -/
theorem validation_fails_fast (prompt : String) (refs : List RefImage)
    (model aspectRatio imageSize : String) (store : List GeneratedImage)
    (fetch : FetchOutcome) (idGen : Nat → String) (ts : Nat)
    (addFailAt : Option Nat) (hp : jsTrim prompt = "") (hr : refs = []) :
    (doGenerate prompt refs model aspectRatio imageSize store fetch idGen ts
        addFailAt).outcome = .validationError "请输入提示词或上传参考图片" ∧
    (doGenerate prompt refs model aspectRatio imageSize store fetch idGen ts
        addFailAt).networkCalled = false ∧
    (doGenerate prompt refs model aspectRatio imageSize store fetch idGen ts
        addFailAt).sentBody = none ∧
    (doGenerate prompt refs model aspectRatio imageSize store fetch idGen ts
        addFailAt).store = store := by
  subst hr
  refine ⟨?_, ?_, ?_, ?_⟩ <;> simp [doGenerate, hp]

/-- Witness for C7 at a whitespace-only prompt and empty image list. -/
theorem validation_fails_fast_witness :
    jsTrim "   " = "" ∧
    (doGenerate "   " [] nanoModelId "1:1" "1K" []
        (.resp 200 { images := some ["u"], error := none }) (fun _ => "x") 0
        none).networkCalled = false :=
  ⟨by decide,
    (validation_fails_fast "   " [] nanoModelId "1:1" "1K" []
      (.resp 200 { images := some ["u"], error := none }) (fun _ => "x") 0 none
      (by decide) rfl).2.1⟩

/-- C8: with a configured (truthy) secret, a missing or differing
`x-access-code` header yields the 401 `UNAUTHORIZED` response; with no
secret the gate passes every call through; and the client reacts to a 401
by clearing the cached access code, reopening the password modal, and
reporting the distinct unauthorized outcome. -/
theorem access_gate_behaviour (s : String) (h : Option String)
    (hs : s ≠ "") (hm : h ≠ some s) :
    checkGate (some s) h = some unauthorizedResp ∧
    unauthorizedResp.status = 401 ∧
    unauthorizedResp.code = "UNAUTHORIZED" ∧
    (∀ h2, checkGate none h2 = none) ∧
    (∀ prompt refs model ar isz store b idGen ts afa,
      refs ≠ ([] : List RefImage) →
      (doGenerate prompt refs model ar isz store (.resp 401 b) idGen ts
          afa).cachedCodeCleared = true ∧
      (doGenerate prompt refs model ar isz store (.resp 401 b) idGen ts
          afa).modalShown = true ∧
      (doGenerate prompt refs model ar isz store (.resp 401 b) idGen ts
          afa).outcome = .unauthorized "访问密码错误，请重新输入") := by
  refine ⟨?_, rfl, rfl, ?_, ?_⟩
  · simp [checkGate, optTruthy, hs, hm]
  · intro h2
    rfl
  · intro prompt refs model ar isz store b idGen ts afa hr
    have hlen : refs.length ≠ 0 := fun hl => hr (List.length_eq_zero.mp hl)
    refine ⟨?_, ?_, ?_⟩ <;> simp [doGenerate, hlen]

/-- A reference image as uploaded by the client. -/
def refPng : RefImage := { mimeType := some "image/png", data := "QUJD" }

/-- Witness for C8: secret `xyz` with a missing header is rejected, no
secret passes through, and a concrete 401 run clears the cached code. -/
theorem access_gate_behaviour_witness :
    checkGate (some "xyz") none = some unauthorizedResp ∧
    checkGate none (some "whatever") = none ∧
    (doGenerate "p" [refPng] nanoModelId "1:1" "1K" []
        (.resp 401 { images := none, error := some "unauthorized" })
        (fun _ => "x") 0 none).cachedCodeCleared = true := by
  have hg := access_gate_behaviour "xyz" none (by decide) (by simp)
  exact ⟨hg.1, hg.2.2.2.1 (some "whatever"),
    (hg.2.2.2.2 "p" [refPng] nanoModelId "1:1" "1K" []
      { images := none, error := some "unauthorized" } (fun _ => "x") 0 none
      (by simp)).1⟩

/-- Every record built by `mkImages` carries the original user prompt. -/
theorem mkImages_prompt (idGen : Nat → String) (p m : String) (ts : Nat) :
    ∀ (i : Nat) (urls : List String) img,
      img ∈ mkImages idGen p m ts i urls → img.prompt = p := by
  intro i urls
  induction urls generalizing i with
  | nil => intro img hmem; simp [mkImages] at hmem
  | cons u us ih =>
    intro img hmem
    simp only [mkImages, List.mem_cons] at hmem
    rcases hmem with hmem | hmem
    · rw [hmem]
    · exact ih (i + 1) img hmem

/-- C4 (amended): a generation call that fails for any reason other than a
store error — validation, a network or body-parse rejection, a 401, a
non-ok status, or a 200 body without an `images` field — does not succeed
and leaves the store exactly unchanged. -/
theorem no_partial_writes_on_nonstore_failure (prompt : String)
    (refs : List RefImage) (model ar isz : String)
    (store : List GeneratedImage) (fetch : FetchOutcome)
    (idGen : Nat → String) (ts : Nat) (afa : Option Nat)
    (h : (jsTrim prompt = "" ∧ refs = []) ∨ (∃ e, fetch = .network e) ∨
      (∃ s b, fetch = .resp s b ∧
        (s = 401 ∨ respOk s = false ∨ b.images = none))) :
    (∀ imgs, (doGenerate prompt refs model ar isz store fetch idGen ts
        afa).outcome ≠ .success imgs) ∧
    (doGenerate prompt refs model ar isz store fetch idGen ts afa).store =
      store := by
  by_cases hv : jsTrim prompt = "" ∧ refs = []
  · obtain ⟨hp, hr⟩ := hv
    subst hr
    exact ⟨fun imgs => by simp [doGenerate, hp], by simp [doGenerate, hp]⟩
  · rcases h with ⟨hp, hr⟩ | ⟨e, hf⟩ | ⟨s, b, hf, hcase⟩
    · exact absurd ⟨hp, hr⟩ hv
    · subst hf
      exact ⟨fun imgs => by simp [doGenerate, hv], by simp [doGenerate, hv]⟩
    · subst hf
      rcases hcase with h401 | hnok | hni
      · subst h401
        exact ⟨fun imgs => by simp [doGenerate, hv], by simp [doGenerate, hv]⟩
      · by_cases h401 : s = 401
        · subst h401
          exact ⟨fun imgs => by simp [doGenerate, hv], by simp [doGenerate, hv]⟩
        · exact ⟨fun imgs => by simp [doGenerate, hv, h401, hnok],
            by simp [doGenerate, hv, h401, hnok]⟩
      · by_cases h401 : s = 401
        · subst h401
          exact ⟨fun imgs => by simp [doGenerate, hv], by simp [doGenerate, hv]⟩
        · by_cases hok : respOk s = true
          · exact ⟨fun imgs => by simp [doGenerate, hv, h401, hok, hni],
              by simp [doGenerate, hv, h401, hok, hni]⟩
          · have hok' : respOk s = false := by
              cases hb : respOk s
              · rfl
              · exact absurd hb hok
            exact ⟨fun imgs => by simp [doGenerate, hv, h401, hok'],
              by simp [doGenerate, hv, h401, hok']⟩

/-- Witness for C4 at a concrete remote-API failure (HTTP 500) against a
non-empty store. -/
theorem no_partial_writes_on_nonstore_failure_witness :
    (doGenerate "p" [] nanoModelId "1:1" "1K" [imgOldB]
        (.resp 500 { images := none, error := some "boom" }) (fun _ => "x") 0
        none).store = [imgOldB] :=
  (no_partial_writes_on_nonstore_failure "p" [] nanoModelId "1:1" "1K"
    [imgOldB] (.resp 500 { images := none, error := some "boom" })
    (fun _ => "x") 0 none
    (Or.inr (Or.inr ⟨500, { images := none, error := some "boom" },
      rfl, Or.inr (Or.inl (by decide))⟩))).2

/-- A 200 response carrying two generated image URLs. -/
def okTwoBody : ClientRespBody := { images := some ["u1", "u2"], error := none }

/-- A run where the store rejects the second of the two `add` calls. -/
def storeFailRun : GenResult :=
  doGenerate "p" [] nanoModelId "1:1" "1K" [] (.resp 200 okTwoBody)
    (fun _ => "x") 5 (some 1)

/-- C4 counterexample: when the remote call returns two images and the
store rejects the second `add`, the call fails yet the store gained the
first record — a partial write on failure. -/
theorem store_error_partial_write :
    storeFailRun.outcome = .failure "store add failed" ∧
    storeFailRun.store =
      [{ id := "x", url := "u1", prompt := "p", model := "Nano",
         timestamp := 5 }] ∧
    storeFailRun.store ≠ [] := by
  refine ⟨by decide, by decide, by decide⟩

/-- Whenever `doGenerate` sends a body at all, it is the wire body of
worker.js lines 346-352, with the prompt of line 348. -/
theorem doGenerate_sentBody (prompt : String) (refs : List RefImage)
    (model ar isz : String) (store : List GeneratedImage)
    (fetch : FetchOutcome) (idGen : Nat → String) (ts : Nat)
    (afa : Option Nat) :
    (doGenerate prompt refs model ar isz store fetch idGen ts afa).sentBody =
        none ∨
    (doGenerate prompt refs model ar isz store fetch idGen ts afa).sentBody =
      some { model := model, prompt := wireBodyPrompt prompt refs.length,
             images := refs, aspectRatio := ar, imageSize := isz } := by
  by_cases hv : jsTrim prompt = "" ∧ refs = []
  · obtain ⟨hp, hr⟩ := hv
    subst hr
    left
    simp [doGenerate, hp]
  · right
    cases fetch with
    | network e => simp [doGenerate, hv]
    | resp s b =>
      by_cases h401 : s = 401
      · subst h401; simp [doGenerate, hv]
      · by_cases hok : respOk s = true
        · cases hi : b.images with
          | none => simp [doGenerate, hv, h401, hok, hi]
          | some urls =>
            cases afa with
            | none => simp [doGenerate, hv, h401, hok, hi]
            | some j =>
              by_cases hj :
                  j < (mkImages idGen prompt (modelLabel model) ts 0 urls).length
              · simp [doGenerate, hv, h401, hok, hi, hj]
              · simp [doGenerate, hv, h401, hok, hi, hj]
        · have hok' : respOk s = false := by
            cases hb : respOk s
            · rfl
            · exact absurd hb hok
          simp [doGenerate, hv, h401, hok']

/-- Every record in the store after a `doGenerate` run was either there
before or is a new record carrying the user's original prompt. -/
theorem doGenerate_store_mem (prompt : String) (refs : List RefImage)
    (model ar isz : String) (store : List GeneratedImage)
    (fetch : FetchOutcome) (idGen : Nat → String) (ts : Nat)
    (afa : Option Nat) :
    ∀ img ∈ (doGenerate prompt refs model ar isz store fetch idGen ts
        afa).store, img ∈ store ∨ img.prompt = prompt := by
  intro img hmem
  by_cases hv : jsTrim prompt = "" ∧ refs = []
  · obtain ⟨hp, hr⟩ := hv
    subst hr
    simp only [doGenerate, hp] at hmem
    simp at hmem
    exact Or.inl hmem
  · cases fetch with
    | network e =>
      simp [doGenerate, hv] at hmem
      exact Or.inl hmem
    | resp s b =>
      by_cases h401 : s = 401
      · subst h401
        simp [doGenerate, hv] at hmem
        exact Or.inl hmem
      · by_cases hok : respOk s = true
        · cases hi : b.images with
          | none =>
            simp [doGenerate, hv, h401, hok, hi] at hmem
            exact Or.inl hmem
          | some urls =>
            cases afa with
            | none =>
              simp [doGenerate, hv, h401, hok, hi, List.mem_append] at hmem
              rcases hmem with hmem | hmem
              · exact Or.inl hmem
              · exact Or.inr (mkImages_prompt idGen prompt (modelLabel model)
                  ts 0 urls img hmem)
            | some j =>
              by_cases hj :
                  j < (mkImages idGen prompt (modelLabel model) ts 0 urls).length
              · simp [doGenerate, hv, h401, hok, hi, hj, List.mem_append] at hmem
                rcases hmem with hmem | hmem
                · exact Or.inl hmem
                · exact Or.inr (mkImages_prompt idGen prompt (modelLabel model)
                    ts 0 urls img (List.take_subset j _ hmem))
              · simp [doGenerate, hv, h401, hok, hi, hj, List.mem_append] at hmem
                rcases hmem with hmem | hmem
                · exact Or.inl hmem
                · exact Or.inr (mkImages_prompt idGen prompt (modelLabel model)
                    ts 0 urls img hmem)
        · have hok' : respOk s = false := by
            cases hb : respOk s
            · rfl
            · exact absurd hb hok
          simp [doGenerate, hv, h401, hok'] at hmem
          exact Or.inl hmem

/-- C10 (amended): when the user's prompt is the empty string and at least
one reference image is attached, any body actually sent carries the fixed
substitute prompt, while every record in the store afterwards is either an
old record or keeps the user's original empty prompt. -/
theorem empty_prompt_substitution (refs : List RefImage) (model ar isz : String)
    (store : List GeneratedImage) (fetch : FetchOutcome)
    (idGen : Nat → String) (ts : Nat) (afa : Option Nat) (hr : refs ≠ []) :
    (∀ b, (doGenerate "" refs model ar isz store fetch idGen ts
        afa).sentBody = some b →
      b.prompt = "Describe these images and modify them") ∧
    (∀ img ∈ (doGenerate "" refs model ar isz store fetch idGen ts
        afa).store, img ∈ store ∨ img.prompt = "") := by
  constructor
  · intro b hb
    rcases doGenerate_sentBody "" refs model ar isz store fetch idGen ts afa
      with hn | hsome
    · rw [hn] at hb
      exact absurd hb (by simp)
    · rw [hsome] at hb
      have hb' := Option.some.inj hb
      have hlen : 0 < refs.length := by
        cases hl : refs with
        | nil => exact absurd hl hr
        | cons x xs => simp [hl]
      rw [← hb']
      simp [wireBodyPrompt, jsTruthy, hlen]
  · exact doGenerate_store_mem "" refs model ar isz store fetch idGen ts afa

/-- The wire body of the C10 witness run. -/
def substBody : WireBody :=
  { model := nanoModelId, prompt := "Describe these images and modify them",
    images := [refPng], aspectRatio := "1:1", imageSize := "1K" }

/-- Witness for C10: an empty prompt with one reference image sends the
substitute prompt and persists the record with the empty prompt. -/
theorem empty_prompt_substitution_witness :
    ([refPng] : List RefImage) ≠ [] ∧
    (doGenerate "" [refPng] nanoModelId "1:1" "1K" []
        (.resp 200 { images := some ["u"], error := none }) (fun _ => "x") 7
        none).sentBody = some substBody ∧
    substBody.prompt = "Describe these images and modify them" ∧
    (doGenerate "" [refPng] nanoModelId "1:1" "1K" []
        (.resp 200 { images := some ["u"], error := none }) (fun _ => "x") 7
        none).store =
      [{ id := "x", url := "u", prompt := "", model := "Nano",
         timestamp := 7 }] := by
  refine ⟨by simp, by decide, ?_, by decide⟩
  exact (empty_prompt_substitution [refPng] nanoModelId "1:1" "1K" []
    (.resp 200 { images := some ["u"], error := none }) (fun _ => "x") 7 none
    (by simp)).1 substBody (by decide)

/-- A run with a whitespace-only prompt and one reference image. -/
def wsRun : GenResult :=
  doGenerate " " [refPng] nanoModelId "1:1" "1K" []
    (.resp 200 { images := some ["u"], error := none }) (fun _ => "x") 7 none

/-- C10 counterexample: with the whitespace-only prompt `" "` and one
reference image the validation passes (the trimmed prompt is empty), yet
the body sent carries `" "` itself — the substitute prompt is used only
for the empty string, because line 348 tests JS truthiness, not
`trim()`. -/
theorem whitespace_prompt_not_substituted :
    jsTrim " " = "" ∧
    wsRun.sentBody =
      some { model := nanoModelId, prompt := " ", images := [refPng],
             aspectRatio := "1:1", imageSize := "1K" } ∧
    (" " : String) ≠ "Describe these images and modify them" := by
  refine ⟨by decide, by decide, by decide⟩

end NanoGallery
